import Mathlib

/-!
Verification of the about:blank tab watchdog
(`browser_use/browser/watchdogs/aboutblank_watchdog.py`).

The watchdog is a reactive event handler: it listens to browser lifecycle
events, queries the live tab list through CDP collaborator calls, and issues
corrective actions (creating a blank placeholder tab, injecting a visual
indicator script).  We embed the handlers as pure functions from an
environment of collaborator-call outcomes to a trace of observable actions
plus an outcome (`Except` models a Python exception propagating out of the
handler).  The injected JavaScript payload is embedded separately as a state
transformer on an abstract tab execution context.
-/

namespace AboutBlankWatchdog

/-- One open browser tab (CDP page target): opaque target id plus current URL. -/
structure PageTarget where
  targetId : String
  url : String
deriving DecidableEq, Repr

/-- Events the watchdog can dispatch onto the event bus
(`NavigateToUrlEvent`, `CloseTabEvent`, `AboutBlankDVDScreensaverShownEvent`). -/
inductive BusEvent where
  | navigateToUrl (url : String) (newTab : Bool)
  | closeTab (targetId : String)
  | aboutBlankDVDScreensaverShown (targetId : String)
deriving DecidableEq, Repr

/-- The kind (Python class) of a bus event, used for the `EMITS` contract. -/
inductive BusEventKind where
  | navigateToUrl
  | closeTab
  | aboutBlankDVDScreensaverShown
deriving DecidableEq, Repr

def BusEvent.kind : BusEvent → BusEventKind
  | .navigateToUrl _ _ => .navigateToUrl
  | .closeTab _ => .closeTab
  | .aboutBlankDVDScreensaverShown _ => .aboutBlankDVDScreensaverShown

/-- The declared emit contract of the watchdog class (the `EMITS` class var
lists `NavigateToUrlEvent`, `CloseTabEvent`,
`AboutBlankDVDScreensaverShownEvent`). -/
def EMITS : List BusEventKind :=
  [.navigateToUrl, .closeTab, .aboutBlankDVDScreensaverShown]

/-- Observable actions a handler performs, in program order:
collaborator calls, bus dispatches (with whether the dispatch is awaited),
and log lines. -/
inductive Action where
  | cdpGetAllPages
  | dispatch (e : BusEvent) (awaited : Bool)
  | getOrCreateCdpSession (targetId : String) (focus : Bool)
  | runtimeEvaluate (targetId : String)
  | logDebug (msg : String)
  | logError (msg : String)
deriving DecidableEq, Repr

/-- Outcomes of the collaborator calls a single handler invocation makes.
`pages` is indexed by the call occurrence (each enumeration is a fresh
snapshot), `navigate` is the result of awaiting the dispatched
`NavigateToUrlEvent`, `session` and `evalScript` are the per-target results of
`get_or_create_cdp_session` and `Runtime.evaluate`.  An `Except.error`
models the Python call raising an exception. -/
structure Env where
  pages : Nat → Except String (List PageTarget)
  navigate : Except String Unit
  session : String → Except String Unit
  evalScript : String → Except String Unit

/-- The watchdog's only mutable state: the `_stopping` private attr. -/
structure WatchdogState where
  stopping : Bool
deriving DecidableEq, Repr

/-- Initial state: `_stopping` defaults to `False`. -/
def initialState : WatchdogState := { stopping := false }

/-- A Python `try: body except Exception as e: logger.error(prefix + e)`
block: the body's trace is kept, an exception is turned into a log line and
a normal return. -/
def tryLogged (tag : String) (body : List Action × Except String Unit) :
    List Action × Except String Unit :=
  match body with
  | (t, .ok ()) => (t, .ok ())
  | (t, .error e) => (t ++ [.logError (tag ++ e)], .ok ())

/-- Body of `_show_dvd_screensaver_loading_animation_cdp` for one target
(the `try` block): create a temp CDP session with `focus=False`, evaluate the
screensaver script, then dispatch `AboutBlankDVDScreensaverShownEvent`
without awaiting it. -/
def show_dvd_screensaver_loading_animation_cdp_body (env : Env)
    (targetId : String) : List Action × Except String Unit :=
  match env.session targetId with
  | .error e => ([.getOrCreateCdpSession targetId false], .error e)
  | .ok () =>
    match env.evalScript targetId with
    | .error e =>
      ([.getOrCreateCdpSession targetId false, .runtimeEvaluate targetId], .error e)
    | .ok () =>
      ([.getOrCreateCdpSession targetId false, .runtimeEvaluate targetId,
        .dispatch (.aboutBlankDVDScreensaverShown targetId) false], .ok ())

/-- `_show_dvd_screensaver_loading_animation_cdp`: the body wrapped in the
`try/except` that logs and swallows any exception. -/
def show_dvd_screensaver_loading_animation_cdp (env : Env) (targetId : String) :
    List Action × Except String Unit :=
  tryLogged "[AboutBlankWatchdog] Error injecting DVD screensaver: "
    (show_dvd_screensaver_loading_animation_cdp_body env targetId)

/-- Body of `_show_dvd_screensaver_on_about_blank_tabs` (the `try` block):
enumerate all pages (call index `k`), and for each target whose url is
exactly `about:blank`, run the per-target injection. -/
def show_dvd_screensaver_on_about_blank_tabs_body (env : Env) (k : Nat) :
    List Action × Except String Unit :=
  match env.pages k with
  | .error e => ([.cdpGetAllPages], .error e)
  | .ok pts =>
    (.cdpGetAllPages ::
      pts.flatMap (fun pt =>
        if pt.url = "about:blank" then
          (show_dvd_screensaver_loading_animation_cdp env pt.targetId).1
        else []),
     .ok ())

/-- `_show_dvd_screensaver_on_about_blank_tabs`: body wrapped in its
logging `try/except`. -/
def show_dvd_screensaver_on_about_blank_tabs (env : Env) (k : Nat) :
    List Action × Except String Unit :=
  tryLogged "[AboutBlankWatchdog] Error showing DVD screensaver: "
    (show_dvd_screensaver_on_about_blank_tabs_body env k)

/-- Body of `_check_and_ensure_about_blank_tab` (the `try` block): enumerate
pages; if and only if no tabs exist, dispatch a `NavigateToUrlEvent` for
`about:blank` with `new_tab=True`, await it, then broadcast the screensaver. -/
def check_and_ensure_about_blank_tab_body (env : Env) (k : Nat) :
    List Action × Except String Unit :=
  match env.pages k with
  | .error e => ([.cdpGetAllPages], .error e)
  | .ok pts =>
    if pts.length = 0 then
      match env.navigate with
      | .error e =>
        ([.cdpGetAllPages,
          .logDebug "[AboutBlankWatchdog] No tabs exist, creating new about:blank DVD screensaver tab",
          .dispatch (.navigateToUrl "about:blank" true) true], .error e)
      | .ok () =>
        let broadcast := show_dvd_screensaver_on_about_blank_tabs env (k + 1)
        (.cdpGetAllPages ::
          .logDebug "[AboutBlankWatchdog] No tabs exist, creating new about:blank DVD screensaver tab" ::
          .dispatch (.navigateToUrl "about:blank" true) true :: broadcast.1,
         broadcast.2)
    else ([.cdpGetAllPages], .ok ())

/-- `_check_and_ensure_about_blank_tab`: body wrapped in its logging
`try/except`. -/
def check_and_ensure_about_blank_tab (env : Env) (k : Nat) :
    List Action × Except String Unit :=
  tryLogged "[AboutBlankWatchdog] Error ensuring about:blank tab: "
    (check_and_ensure_about_blank_tab_body env k)

/-- `on_TabClosedEvent`: if `_stopping`, return immediately; otherwise
enumerate pages (NOT inside any try/except).  If the count is at most one,
dispatch a `NavigateToUrlEvent(url=about:blank, new_tab=True)`, await it,
then broadcast the screensaver; otherwise run the reconciliation check.
The enumeration and the awaited navigate dispatch can propagate exceptions. -/
def on_TabClosedEvent (env : Env) (s : WatchdogState) :
    List Action × Except String Unit :=
  if s.stopping then ([], .ok ())
  else
    match env.pages 0 with
    | .error e => ([.cdpGetAllPages], .error e)
    | .ok pts =>
      if pts.length ≤ 1 then
        match env.navigate with
        | .error e =>
          ([.cdpGetAllPages,
            .logDebug "[AboutBlankWatchdog] Last tab closing, creating new about:blank tab to avoid closing entire browser",
            .dispatch (.navigateToUrl "about:blank" true) true], .error e)
        | .ok () =>
          let broadcast := show_dvd_screensaver_on_about_blank_tabs env 1
          (.cdpGetAllPages ::
            .logDebug "[AboutBlankWatchdog] Last tab closing, creating new about:blank tab to avoid closing entire browser" ::
            .dispatch (.navigateToUrl "about:blank" true) true :: broadcast.1,
           broadcast.2)
      else
        let check := check_and_ensure_about_blank_tab env 1
        (.cdpGetAllPages :: check.1, check.2)

/-- `on_TabCreatedEvent`: if the created tab's url is `about:blank`,
broadcast the screensaver over all about:blank tabs; otherwise do nothing. -/
def on_TabCreatedEvent (env : Env) (url : String) :
    List Action × Except String Unit :=
  if url = "about:blank" then show_dvd_screensaver_on_about_blank_tabs env 0
  else ([], .ok ())

/-- The four event kinds the watchdog listens to (`LISTENS_TO`). -/
inductive Event where
  | browserStop
  | browserStopped
  | tabCreated (url : String)
  | tabClosed
deriving DecidableEq, Repr

/-- Dispatch of one received event to its handler: returns the new watchdog
state, the trace of actions, and the outcome.  `on_BrowserStopEvent` and
`on_BrowserStoppedEvent` only set `_stopping := True`. -/
def handleEvent (env : Env) (s : WatchdogState) (e : Event) :
    WatchdogState × List Action × Except String Unit :=
  match e with
  | .browserStop => ({ stopping := true }, [], .ok ())
  | .browserStopped => ({ stopping := true }, [], .ok ())
  | .tabCreated url => (s, on_TabCreatedEvent env url)
  | .tabClosed => (s, on_TabClosedEvent env s)

/-- Fold a sequence of handled events (each with the environment its
collaborator calls observed) over the watchdog state. -/
def runEvents (s : WatchdogState) : List (Event × Env) → WatchdogState
  | [] => s
  | (e, env) :: rest => runEvents (handleEvent env s e).1 rest

/-- A fault-free environment used to instantiate theorems at concrete inputs. -/
def trivEnv : Env where
  pages := fun _ => .ok []
  navigate := .ok ()
  session := fun _ => .ok ()
  evalScript := fun _ => .ok ()

/-! ### The injected screensaver payload

The payload is a JavaScript IIFE run in the tab's execution context.  Its
non-cosmetic state effects are: the `window.__dvdAnimationRunning` flag, the
document title (set to the sentinel `Starting Agent Stapply...`), the overlay
element appended to the body, and — when the body is missing while the
document is still loading — a `DOMContentLoaded` listener re-arming the whole
payload.  We embed the context as a record of those observables and the
payload as a state transformer. -/

/-- Observable state of one tab execution context, as touched by the payload. -/
structure TabContext where
  /-- `window.__dvdAnimationRunning`. -/
  dvdAnimationRunning : Bool
  /-- whether `document.body` exists. -/
  bodyExists : Bool
  /-- whether `document.readyState === 'loading'`. -/
  readyStateLoading : Bool
  /-- `document.title`. -/
  title : String
  /-- number of `#pretty-loading-animation` overlay elements appended. -/
  overlayCount : Nat
  /-- number of `DOMContentLoaded` listeners registered by the payload. -/
  domContentLoadedListeners : Nat
deriving DecidableEq, Repr

/-- The sentinel title the payload sets on first successful run. -/
def animatedTitle : String := "Starting Agent Stapply..."

/-- One run of the injected payload IIFE.  Branches in source order:
(1) if the running flag is set, return; (2) set the flag; (3) if no body,
reset the flag and, when still loading, register a `DOMContentLoaded`
listener that re-runs the payload, then return; (4) if the title is already
the sentinel, return (flag stays set); (5) set the sentinel title and append
the overlay. -/
def dvdPayload (s : TabContext) : TabContext :=
  if s.dvdAnimationRunning then s
  else if ¬ s.bodyExists then
    if s.readyStateLoading then
      { s with dvdAnimationRunning := false,
               domContentLoadedListeners := s.domContentLoadedListeners + 1 }
    else { s with dvdAnimationRunning := false }
  else if s.title = animatedTitle then
    { s with dvdAnimationRunning := true }
  else
    { s with dvdAnimationRunning := true, title := animatedTitle,
             overlayCount := s.overlayCount + 1 }

/-- Whether an action is a `NavigateToUrlEvent` dispatch (a tab creation). -/
def isNavigateDispatch : Action → Bool
  | .dispatch (.navigateToUrl _ _) _ => true
  | _ => false

/-- Number of `NavigateToUrlEvent` dispatches (tab creations) in a trace. -/
def navigateDispatchCount (t : List Action) : Nat :=
  (t.filter isNavigateDispatch).length

/-- Shape invariant of every action the watchdog can perform: the only bus
dispatches are awaited `NavigateToUrlEvent`s and non-awaited
`AboutBlankDVDScreensaverShownEvent`s, and every CDP session is created with
`focus=False`. -/
def wfAction : Action → Prop
  | .dispatch ev b =>
      (b = true ∧ ∃ u nt, ev = BusEvent.navigateToUrl u nt) ∨
      (b = false ∧ ∃ tid, ev = BusEvent.aboutBlankDVDScreensaverShown tid)
  | .getOrCreateCdpSession _ focus => focus = false
  | _ => True

/-- Environment with a single about:blank tab, all calls succeeding. -/
def lastTabEnv : Env where
  pages := fun _ => .ok [{ targetId := "X", url := "about:blank" }]
  navigate := .ok ()
  session := fun _ => .ok ()
  evalScript := fun _ => .ok ()

/-- Environment where every tab enumeration raises. -/
def pagesErrEnv : Env where
  pages := fun _ => .error "CDP connection lost"
  navigate := .ok ()
  session := fun _ => .ok ()
  evalScript := fun _ => .ok ()

/-- Environment with two about:blank tabs where script evaluation fails on
the first tab only. -/
def failT1Env : Env where
  pages := fun _ => .ok [{ targetId := "T1", url := "about:blank" },
                         { targetId := "T2", url := "about:blank" }]
  navigate := .ok ()
  session := fun _ => .ok ()
  evalScript := fun t => if t = "T1" then .error "boom" else .ok ()

/-- A tab context whose document body is missing while the document is still
loading (the deferral branch of the payload). -/
def loadingCtx : TabContext :=
  { dvdAnimationRunning := false, bodyExists := false, readyStateLoading := true,
    title := "", overlayCount := 0, domContentLoadedListeners := 0 }

/-- A fresh, ready tab context (body present, title untouched). -/
def readyCtx : TabContext :=
  { dvdAnimationRunning := false, bodyExists := true, readyStateLoading := false,
    title := "", overlayCount := 0, domContentLoadedListeners := 0 }

/-! ### Helper lemmas -/

theorem tryLogged_ok (tag : String) (body : List Action × Except String Unit) :
    (tryLogged tag body).2 = Except.ok () := by
  obtain ⟨t, o⟩ := body
  cases o with
  | ok u => cases u; rfl
  | error e => rfl

theorem inject_outcome_ok (env : Env) (tid : String) :
    (show_dvd_screensaver_loading_animation_cdp env tid).2 = Except.ok () :=
  tryLogged_ok _ _

theorem broadcast_outcome_ok (env : Env) (k : Nat) :
    (show_dvd_screensaver_on_about_blank_tabs env k).2 = Except.ok () :=
  tryLogged_ok _ _

theorem check_outcome_ok (env : Env) (k : Nat) :
    (check_and_ensure_about_blank_tab env k).2 = Except.ok () :=
  tryLogged_ok _ _

/-- Exhaustive description of the per-target injection trace, one disjunct
per way the `try` block can go. -/
theorem inject_trace_cases (env : Env) (tid : String) :
    (env.session tid = Except.ok () ∧ env.evalScript tid = Except.ok () ∧
      (show_dvd_screensaver_loading_animation_cdp env tid).1
        = [.getOrCreateCdpSession tid false, .runtimeEvaluate tid,
           .dispatch (.aboutBlankDVDScreensaverShown tid) false])
  ∨ (∃ e, env.session tid = Except.error e ∧
      (show_dvd_screensaver_loading_animation_cdp env tid).1
        = [.getOrCreateCdpSession tid false,
           .logError ("[AboutBlankWatchdog] Error injecting DVD screensaver: " ++ e)])
  ∨ (∃ e, env.session tid = Except.ok () ∧ env.evalScript tid = Except.error e ∧
      (show_dvd_screensaver_loading_animation_cdp env tid).1
        = [.getOrCreateCdpSession tid false, .runtimeEvaluate tid,
           .logError ("[AboutBlankWatchdog] Error injecting DVD screensaver: " ++ e)]) := by
  unfold show_dvd_screensaver_loading_animation_cdp tryLogged
    show_dvd_screensaver_loading_animation_cdp_body
  cases hs : env.session tid with
  | error e => exact Or.inr (Or.inl ⟨e, rfl, rfl⟩)
  | ok u =>
    cases u
    cases he : env.evalScript tid with
    | error e => exact Or.inr (Or.inr ⟨e, rfl, rfl, rfl⟩)
    | ok u => cases u; exact Or.inl ⟨rfl, rfl, rfl⟩

/-- The session-creation call is always the first action of an injection. -/
theorem session_mem_inject (env : Env) (tid : String) :
    Action.getOrCreateCdpSession tid false
      ∈ (show_dvd_screensaver_loading_animation_cdp env tid).1 := by
  rcases inject_trace_cases env tid with ⟨_, _, h⟩ | ⟨e, _, h⟩ | ⟨e, _, _, h⟩ <;>
    rw [h] <;> simp

/-- If the session was created, the evaluate call is performed (whether or
not it then raises). -/
theorem evaluate_mem_inject (env : Env) (tid : String)
    (hs : env.session tid = Except.ok ()) :
    Action.runtimeEvaluate tid
      ∈ (show_dvd_screensaver_loading_animation_cdp env tid).1 := by
  rcases inject_trace_cases env tid with ⟨_, _, h⟩ | ⟨e, he, h⟩ | ⟨e, _, _, h⟩
  · rw [h]; simp
  · rw [hs] at he; cases he
  · rw [h]; simp

/-- An evaluate action in an injection trace names the injected target. -/
theorem evaluate_mem_inject_eq (env : Env) (tid tid' : String)
    (h : Action.runtimeEvaluate tid'
          ∈ (show_dvd_screensaver_loading_animation_cdp env tid).1) :
    tid' = tid := by
  rcases inject_trace_cases env tid with ⟨_, _, ht⟩ | ⟨e, _, ht⟩ | ⟨e, _, _, ht⟩ <;>
    rw [ht] at h <;> simp at h <;> tauto

theorem navigateDispatchCount_append (a b : List Action) :
    navigateDispatchCount (a ++ b)
      = navigateDispatchCount a + navigateDispatchCount b := by
  simp [navigateDispatchCount, List.filter_append]

theorem navigateDispatchCount_inject (env : Env) (tid : String) :
    navigateDispatchCount (show_dvd_screensaver_loading_animation_cdp env tid).1
      = 0 := by
  rcases inject_trace_cases env tid with ⟨_, _, h⟩ | ⟨e, _, h⟩ | ⟨e, _, _, h⟩ <;>
    rw [h] <;> rfl

theorem navigateDispatchCount_flatMap_inject (env : Env) (pts : List PageTarget) :
    navigateDispatchCount (pts.flatMap fun pt =>
        if pt.url = "about:blank" then
          (show_dvd_screensaver_loading_animation_cdp env pt.targetId).1
        else []) = 0 := by
  induction pts with
  | nil => rfl
  | cons pt rest ih =>
    rw [List.flatMap_cons, navigateDispatchCount_append, ih]
    by_cases h : pt.url = "about:blank"
    · rw [if_pos h, navigateDispatchCount_inject]
    · rw [if_neg h]; rfl

theorem navigateDispatchCount_broadcast (env : Env) (k : Nat) :
    navigateDispatchCount (show_dvd_screensaver_on_about_blank_tabs env k).1
      = 0 := by
  unfold show_dvd_screensaver_on_about_blank_tabs tryLogged
    show_dvd_screensaver_on_about_blank_tabs_body
  cases hp : env.pages k with
  | error e => rfl
  | ok pts =>
    have h0 := navigateDispatchCount_flatMap_inject env pts
    simpa [navigateDispatchCount, isNavigateDispatch] using h0

theorem wf_inject (env : Env) (tid : String) :
    ∀ a ∈ (show_dvd_screensaver_loading_animation_cdp env tid).1, wfAction a := by
  intro a ha
  rcases inject_trace_cases env tid with ⟨_, _, h⟩ | ⟨e, _, h⟩ | ⟨e, _, _, h⟩ <;>
    rw [h] at ha <;> simp at ha <;>
    rcases ha with rfl | rfl | rfl <;>
    simp [wfAction]

theorem wf_broadcast (env : Env) (k : Nat) :
    ∀ a ∈ (show_dvd_screensaver_on_about_blank_tabs env k).1, wfAction a := by
  intro a ha
  unfold show_dvd_screensaver_on_about_blank_tabs tryLogged
    show_dvd_screensaver_on_about_blank_tabs_body at ha
  cases hp : env.pages k with
  | error e =>
    rw [hp] at ha
    simp at ha
    rcases ha with rfl | rfl <;> simp [wfAction]
  | ok pts =>
    rw [hp] at ha
    simp at ha
    rcases ha with rfl | ⟨pt, hpt, hurl, hmem⟩
    · simp [wfAction]
    · exact wf_inject env pt.targetId a hmem

theorem wf_check (env : Env) (k : Nat) :
    ∀ a ∈ (check_and_ensure_about_blank_tab env k).1, wfAction a := by
  intro a ha
  unfold check_and_ensure_about_blank_tab tryLogged
    check_and_ensure_about_blank_tab_body at ha
  cases hp : env.pages k with
  | error e =>
    rw [hp] at ha
    simp at ha
    rcases ha with rfl | rfl <;> simp [wfAction]
  | ok pts =>
    rw [hp] at ha
    by_cases hlen : pts.length = 0
    · cases hn : env.navigate with
      | error e =>
        simp [hlen, hn] at ha
        rcases ha with rfl | rfl | rfl | rfl <;> simp [wfAction]
      | ok u =>
        cases u
        simp [hlen, hn, broadcast_outcome_ok] at ha
        rcases ha with rfl | rfl | rfl | ha
        · simp [wfAction]
        · simp [wfAction]
        · simp [wfAction]
        · exact wf_broadcast env (k + 1) a ha
    · simp [hlen] at ha
      subst ha
      simp [wfAction]

theorem wf_onTabClosed (env : Env) (s : WatchdogState) :
    ∀ a ∈ (on_TabClosedEvent env s).1, wfAction a := by
  intro a ha
  unfold on_TabClosedEvent at ha
  by_cases hstop : s.stopping
  · rw [if_pos hstop] at ha; cases ha
  · rw [if_neg hstop] at ha
    cases hp : env.pages 0 with
    | error e =>
      rw [hp] at ha
      simp at ha
      subst ha
      simp [wfAction]
    | ok pts =>
      rw [hp] at ha
      by_cases hlen : pts.length ≤ 1
      · cases hn : env.navigate with
        | error e =>
          simp [hlen, hn] at ha
          rcases ha with rfl | rfl | rfl <;> simp [wfAction]
        | ok u =>
          cases u
          simp [hlen, hn] at ha
          rcases ha with rfl | rfl | rfl | ha
          · simp [wfAction]
          · simp [wfAction]
          · simp [wfAction]
          · exact wf_broadcast env 1 a ha
      · simp [hlen] at ha
        rcases ha with rfl | ha
        · simp [wfAction]
        · exact wf_check env 1 a ha

theorem wf_onTabCreated (env : Env) (url : String) :
    ∀ a ∈ (on_TabCreatedEvent env url).1, wfAction a := by
  intro a ha
  unfold on_TabCreatedEvent at ha
  by_cases hurl : url = "about:blank"
  · rw [if_pos hurl] at ha
    exact wf_broadcast env 0 a ha
  · rw [if_neg hurl] at ha
    cases ha

theorem wf_handleEvent (env : Env) (s : WatchdogState) (e : Event) :
    ∀ a ∈ (handleEvent env s e).2.1, wfAction a := by
  cases e with
  | browserStop => intro a ha; cases ha
  | browserStopped => intro a ha; cases ha
  | tabCreated url => exact wf_onTabCreated env url
  | tabClosed => exact wf_onTabClosed env s

theorem handleEvent_stopping_mono (env : Env) (s : WatchdogState) (e : Event)
    (h : s.stopping = true) : (handleEvent env s e).1.stopping = true := by
  cases e <;> simp [handleEvent, h]

theorem runEvents_stopping_mono (evs : List (Event × Env)) (s : WatchdogState)
    (h : s.stopping = true) : (runEvents s evs).stopping = true := by
  induction evs generalizing s with
  | nil => simpa [runEvents]
  | cons p rest ih =>
    obtain ⟨e, env⟩ := p
    rw [runEvents]
    exact ih _ (handleEvent_stopping_mono env s e h)

theorem runEvents_append (a b : List (Event × Env)) (s : WatchdogState) :
    runEvents s (a ++ b) = runEvents (runEvents s a) b := by
  induction a generalizing s with
  | nil => simp [runEvents]
  | cons p rest ih =>
    obtain ⟨e, env⟩ := p
    rw [List.cons_append, runEvents, runEvents, ih]

/-! ### Claim theorems -/

/-- C1: for a tab-closing notification handled while the shutting-down flag
is false, if the live tab enumeration returns at most one tab, the handler
dispatches a `NavigateToUrlEvent` with url `about:blank` and `new_tab=True`,
awaits it (the dispatch is recorded as awaited, and every broadcast action
comes after it in the trace), and only then broadcasts the screensaver over
all about:blank tabs; the close handler then settles normally. -/
theorem c1_last_tab_close_creates_then_broadcasts (env : Env)
    (s : WatchdogState) (pts : List PageTarget) (hstop : s.stopping = false)
    (hpages : env.pages 0 = Except.ok pts) (hcount : pts.length ≤ 1)
    (hnav : env.navigate = Except.ok ()) :
    on_TabClosedEvent env s
      = (Action.cdpGetAllPages ::
         Action.logDebug "[AboutBlankWatchdog] Last tab closing, creating new about:blank tab to avoid closing entire browser" ::
         Action.dispatch (BusEvent.navigateToUrl "about:blank" true) true ::
         (show_dvd_screensaver_on_about_blank_tabs env 1).1,
         Except.ok ()) := by
  unfold on_TabClosedEvent
  rw [if_neg (by simp [hstop]), hpages]
  simp [hcount, hnav, broadcast_outcome_ok]

/-- C1 witness: with a single about:blank tab open and all collaborator
calls succeeding, the close handler creates first and broadcasts after. -/
theorem c1_witness :
    on_TabClosedEvent lastTabEnv initialState
      = (Action.cdpGetAllPages ::
         Action.logDebug "[AboutBlankWatchdog] Last tab closing, creating new about:blank tab to avoid closing entire browser" ::
         Action.dispatch (BusEvent.navigateToUrl "about:blank" true) true ::
         (show_dvd_screensaver_on_about_blank_tabs lastTabEnv 1).1,
         Except.ok ()) :=
  c1_last_tab_close_creates_then_broadcasts lastTabEnv initialState
    [{ targetId := "X", url := "about:blank" }] rfl rfl (by decide) rfl

/-- C2: the reconciliation check dispatches a tab creation if and only if
the enumeration returns exactly zero tabs (then exactly one creation,
followed by the indicator broadcast), and a tab-closing notification that
finds more than one tab runs exactly this reconciliation. -/
theorem c2_reconciliation_creates_iff_zero_tabs (env : Env) :
    (∀ k pts, env.pages k = Except.ok pts →
        navigateDispatchCount (check_and_ensure_about_blank_tab env k).1
          = if pts.length = 0 then 1 else 0)
  ∧ (∀ k pts, env.pages k = Except.ok pts → pts.length = 0 →
        env.navigate = Except.ok () →
        (check_and_ensure_about_blank_tab env k).1
          = Action.cdpGetAllPages ::
            Action.logDebug "[AboutBlankWatchdog] No tabs exist, creating new about:blank DVD screensaver tab" ::
            Action.dispatch (BusEvent.navigateToUrl "about:blank" true) true ::
            (show_dvd_screensaver_on_about_blank_tabs env (k + 1)).1)
  ∧ (∀ s pts0, s.stopping = false → env.pages 0 = Except.ok pts0 →
        1 < pts0.length →
        on_TabClosedEvent env s
          = (Action.cdpGetAllPages :: (check_and_ensure_about_blank_tab env 1).1,
             (check_and_ensure_about_blank_tab env 1).2)) := by
  refine ⟨?_, ?_, ?_⟩
  · intro k pts hpages
    unfold check_and_ensure_about_blank_tab tryLogged
      check_and_ensure_about_blank_tab_body
    rw [hpages]
    by_cases hlen : pts.length = 0
    · cases hn : env.navigate with
      | error e =>
        simp [hlen, navigateDispatchCount_append, navigateDispatchCount,
          isNavigateDispatch]
      | ok u =>
        cases u
        have hb := navigateDispatchCount_broadcast env (k + 1)
        simp [hlen, broadcast_outcome_ok, navigateDispatchCount,
          isNavigateDispatch] at hb ⊢
        exact hb
    · simp [hlen, navigateDispatchCount, isNavigateDispatch]
  · intro k pts hpages hlen hnav
    unfold check_and_ensure_about_blank_tab tryLogged
      check_and_ensure_about_blank_tab_body
    rw [hpages]
    simp [hlen, hnav, broadcast_outcome_ok]
  · intro s pts0 hstop hpages hcount
    unfold on_TabClosedEvent
    rw [if_neg (by simp [hstop]), hpages]
    have hlen : ¬ pts0.length ≤ 1 := by omega
    simp [hlen]

/-- C2 witness: with an enumeration returning zero tabs, the reconciliation
dispatches exactly one tab creation. -/
theorem c2_witness :
    navigateDispatchCount (check_and_ensure_about_blank_tab trivEnv 0).1 = 1 := by
  have h := (c2_reconciliation_creates_iff_zero_tabs trivEnv).1 0 [] rfl
  simpa using h

/-- C3: after a stop-requested or stop-confirmed event is processed, the
shutting-down flag is true, stays true under any further handled events, and
any subsequently handled tab-closing notification returns immediately with
an empty trace (in particular, no tab creation). -/
theorem c3_stop_flag_irreversible_blocks_creation (pre mid : List (Event × Env))
    (e0 : Event) (h : e0 = Event.browserStop ∨ e0 = Event.browserStopped)
    (env0 envLater : Env) :
    (runEvents initialState (pre ++ (e0, env0) :: mid)).stopping = true ∧
    handleEvent envLater (runEvents initialState (pre ++ (e0, env0) :: mid))
        Event.tabClosed
      = (runEvents initialState (pre ++ (e0, env0) :: mid), [], Except.ok ()) := by
  have hstop : (runEvents initialState (pre ++ (e0, env0) :: mid)).stopping = true := by
    rw [runEvents_append, runEvents]
    refine runEvents_stopping_mono mid _ ?_
    rcases h with rfl | rfl <;> rfl
  refine ⟨hstop, ?_⟩
  simp [handleEvent, on_TabClosedEvent, hstop]

/-- C3 witness: instantiated with a stop-request and no surrounding events. -/
theorem c3_witness :
    (runEvents initialState ([] ++ (Event.browserStop, trivEnv) :: [])).stopping
      = true ∧
    handleEvent trivEnv
        (runEvents initialState ([] ++ (Event.browserStop, trivEnv) :: []))
        Event.tabClosed
      = (runEvents initialState ([] ++ (Event.browserStop, trivEnv) :: []), [],
         Except.ok ()) :=
  c3_stop_flag_irreversible_blocks_creation [] [] Event.browserStop (Or.inl rfl)
    trivEnv trivEnv

/-- C4 counterexample: the tab enumeration at the top of the tab-closed
handler is not inside any try/except, so when it raises, the handler
propagates the exception to the event bus, contrary to the claim. -/
theorem c4_counterexample :
    (on_TabClosedEvent pagesErrEnv initialState).2
      = Except.error "CDP connection lost" := rfl

/-- C4 amended: collaborator exceptions are caught and logged inside the
per-tab injection, the indicator broadcast, the reconciliation check, and
the tab-created handler, which therefore never propagate; the tab-closed
handler, however, can propagate an exception, and only from its initial tab
enumeration or from the awaited tab-creation dispatch. -/
theorem c4_amended_exception_containment (env : Env) :
    (∀ tid, (show_dvd_screensaver_loading_animation_cdp env tid).2 = Except.ok ())
  ∧ (∀ k, (show_dvd_screensaver_on_about_blank_tabs env k).2 = Except.ok ())
  ∧ (∀ k, (check_and_ensure_about_blank_tab env k).2 = Except.ok ())
  ∧ (∀ url, (on_TabCreatedEvent env url).2 = Except.ok ())
  ∧ (∀ s e, (on_TabClosedEvent env s).2 = Except.error e →
        env.pages 0 = Except.error e ∨ env.navigate = Except.error e) := by
  refine ⟨fun tid => inject_outcome_ok env tid,
          fun k => broadcast_outcome_ok env k,
          fun k => check_outcome_ok env k, ?_, ?_⟩
  · intro url
    unfold on_TabCreatedEvent
    by_cases hurl : url = "about:blank"
    · rw [if_pos hurl]; exact broadcast_outcome_ok env 0
    · rw [if_neg hurl]
  · intro s e herr
    unfold on_TabClosedEvent at herr
    by_cases hstop : s.stopping
    · rw [if_pos hstop] at herr; cases herr
    · rw [if_neg hstop] at herr
      cases hp : env.pages 0 with
      | error e0 =>
        rw [hp] at herr
        simp at herr
        subst herr
        exact Or.inl rfl
      | ok pts =>
        rw [hp] at herr
        by_cases hlen : pts.length ≤ 1
        · cases hn : env.navigate with
          | error e0 =>
            simp [hlen, hn] at herr
            subst herr
            exact Or.inr rfl
          | ok u =>
            cases u
            simp [hlen, hn, broadcast_outcome_ok] at herr
        · simp [hlen, check_outcome_ok] at herr

/-- C4 amended witness: the per-tab injection settles normally. -/
theorem c4_witness :
    (show_dvd_screensaver_loading_animation_cdp trivEnv "T").2 = Except.ok () :=
  (c4_amended_exception_containment trivEnv).1 "T"

/-- C5 counterexample: in a context whose document body is missing while the
document is still loading, the first payload run resets the running flag and
registers a deferred retry listener, so a second run does not detect any
marker and registers a second listener — the end state after two runs
differs from the end state after one run. -/
theorem c5_counterexample :
    dvdPayload (dvdPayload loadingCtx) ≠ dvdPayload loadingCtx := by decide

/-- C5 amended: running the payload twice yields the same end state as
running it once whenever the document body is available, or the body is
missing but the document is not in the loading state; only in the
body-missing-while-loading deferral branch does a second run add one more
deferred retry listener. -/
theorem c5_amended_payload_idempotent (s : TabContext)
    (h : s.bodyExists = true ∨ s.readyStateLoading = false) :
    dvdPayload (dvdPayload s) = dvdPayload s := by
  obtain ⟨run, body, loading, ttl, oc, lis⟩ := s
  cases run
  · cases body
    · have hl : loading = false := by simpa using h
      subst hl
      simp [dvdPayload]
    · by_cases ht : ttl = animatedTitle <;> simp [dvdPayload, ht]
  · simp [dvdPayload]

/-- C5 amended witness: on a fresh, ready tab context a second run is a
no-op. -/
theorem c5_witness :
    dvdPayload (dvdPayload readyCtx) = dvdPayload readyCtx :=
  c5_amended_payload_idempotent readyCtx (Or.inl rfl)

/-- C6: in a broadcast, every enumerated about:blank tab has its injection
attempted (the session-creation call appears in the trace) irrespective of
what happens for the other tabs, and an injection whose script evaluation
raises ends with a log line for that tab only — no confirmation dispatch,
no propagation. -/
theorem c6_failed_injection_skipped_per_tab (env : Env) (k : Nat)
    (pts : List PageTarget) (hpages : env.pages k = Except.ok pts) :
    (∀ pt ∈ pts, pt.url = "about:blank" →
        Action.getOrCreateCdpSession pt.targetId false
          ∈ (show_dvd_screensaver_on_about_blank_tabs env k).1)
  ∧ (∀ tid e, env.session tid = Except.ok () →
        env.evalScript tid = Except.error e →
        (show_dvd_screensaver_loading_animation_cdp env tid).1
          = [Action.getOrCreateCdpSession tid false, Action.runtimeEvaluate tid,
             Action.logError
               ("[AboutBlankWatchdog] Error injecting DVD screensaver: " ++ e)]) := by
  constructor
  · intro pt hpt hurl
    unfold show_dvd_screensaver_on_about_blank_tabs tryLogged
      show_dvd_screensaver_on_about_blank_tabs_body
    rw [hpages]
    simp only [List.mem_cons, List.mem_flatMap]
    refine Or.inr ⟨pt, hpt, ?_⟩
    rw [if_pos hurl]
    exact session_mem_inject env pt.targetId
  · intro tid e hs he
    unfold show_dvd_screensaver_loading_animation_cdp tryLogged
      show_dvd_screensaver_loading_animation_cdp_body
    rw [hs, he]
    rfl

/-- C6 witness: with two about:blank tabs where evaluation fails on the
first, the second tab's injection is still attempted. -/
theorem c6_witness :
    Action.getOrCreateCdpSession "T2" false
      ∈ (show_dvd_screensaver_on_about_blank_tabs failT1Env 0).1 :=
  (c6_failed_injection_skipped_per_tab failT1Env 0
      [{ targetId := "T1", url := "about:blank" },
       { targetId := "T2", url := "about:blank" }] rfl).1
    { targetId := "T2", url := "about:blank" } (by decide) rfl

/-- C7: a tab-created event for `about:blank` triggers the broadcast, which
evaluates the payload in every enumerated tab whose URL is `about:blank`
(given the session creations succeed) and in no tab with a different URL;
a tab-created event with any other URL does nothing. -/
theorem c7_blank_tab_created_broadcasts_to_blank_only (env : Env)
    (url : String) :
    (url ≠ "about:blank" → on_TabCreatedEvent env url = ([], Except.ok ()))
  ∧ (∀ pts, url = "about:blank" → env.pages 0 = Except.ok pts →
      (∀ t, env.session t = Except.ok ()) →
      (∀ pt ∈ pts, pt.url = "about:blank" →
          Action.runtimeEvaluate pt.targetId ∈ (on_TabCreatedEvent env url).1)
    ∧ (∀ tid, Action.runtimeEvaluate tid ∈ (on_TabCreatedEvent env url).1 →
          ∃ pt, pt ∈ pts ∧ pt.url = "about:blank" ∧ pt.targetId = tid)) := by
  constructor
  · intro hurl
    unfold on_TabCreatedEvent
    rw [if_neg hurl]
  · intro pts hurl hpages hsess
    subst hurl
    unfold on_TabCreatedEvent
    rw [if_pos rfl]
    unfold show_dvd_screensaver_on_about_blank_tabs tryLogged
      show_dvd_screensaver_on_about_blank_tabs_body
    rw [hpages]
    constructor
    · intro pt hpt hurl
      simp only [List.mem_cons, List.mem_flatMap]
      refine Or.inr ⟨pt, hpt, ?_⟩
      rw [if_pos hurl]
      exact evaluate_mem_inject env pt.targetId (hsess pt.targetId)
    · intro tid hmem
      simp only [List.mem_cons, List.mem_flatMap] at hmem
      rcases hmem with heq | ⟨pt, hpt, hmem⟩
      · cases heq
      · by_cases hurl : pt.url = "about:blank"
        · rw [if_pos hurl] at hmem
          exact ⟨pt, hpt, hurl, (evaluate_mem_inject_eq env pt.targetId tid hmem).symm⟩
        · rw [if_neg hurl] at hmem
          cases hmem

/-- C7 witness: a created about:blank tab leads to evaluation in an
enumerated about:blank tab. -/
theorem c7_witness :
    Action.runtimeEvaluate "T1"
      ∈ (on_TabCreatedEvent failT1Env "about:blank").1 :=
  (((c7_blank_tab_created_broadcasts_to_blank_only failT1Env "about:blank").2
      [{ targetId := "T1", url := "about:blank" },
       { targetId := "T2", url := "about:blank" }] rfl rfl (fun _ => rfl)).1
    { targetId := "T1", url := "about:blank" } (by decide) rfl)

/-- C8: an injection dispatches the `AboutBlankDVDScreensaverShownEvent`
confirmation only when the session creation and the script evaluation both
succeeded, always carrying the injected target id and never awaited; on
success the trace is exactly session, evaluate, then a single non-awaited
confirmation dispatch. -/
theorem c8_confirmation_after_successful_injection (env : Env) (tid : String) :
    (∀ b, Action.dispatch (BusEvent.aboutBlankDVDScreensaverShown tid) b
        ∈ (show_dvd_screensaver_loading_animation_cdp env tid).1 →
      b = false ∧ env.session tid = Except.ok () ∧
        env.evalScript tid = Except.ok ())
  ∧ (env.session tid = Except.ok () → env.evalScript tid = Except.ok () →
      (show_dvd_screensaver_loading_animation_cdp env tid).1
        = [Action.getOrCreateCdpSession tid false, Action.runtimeEvaluate tid,
           Action.dispatch (BusEvent.aboutBlankDVDScreensaverShown tid) false]) := by
  constructor
  · intro b hmem
    rcases inject_trace_cases env tid with ⟨hs, he, ht⟩ | ⟨e, hs, ht⟩ | ⟨e, hs, he, ht⟩ <;>
      rw [ht] at hmem <;> simp at hmem
    exact ⟨hmem, hs, he⟩
  · intro hs he
    unfold show_dvd_screensaver_loading_animation_cdp tryLogged
      show_dvd_screensaver_loading_animation_cdp_body
    rw [hs, he]

/-- C8 witness: a fault-free injection produces exactly one non-awaited
confirmation dispatch, after the evaluate call. -/
theorem c8_witness :
    (show_dvd_screensaver_loading_animation_cdp trivEnv "T").1
      = [Action.getOrCreateCdpSession "T" false, Action.runtimeEvaluate "T",
         Action.dispatch (BusEvent.aboutBlankDVDScreensaverShown "T") false] :=
  (c8_confirmation_after_successful_injection trivEnv "T").2 rfl rfl

/-- C9: under every handled event, every bus dispatch in the trace is either
a `NavigateToUrlEvent` or an `AboutBlankDVDScreensaverShownEvent`; a
`CloseTabEvent` is never dispatched, even though the declared `EMITS`
contract lists it. -/
theorem c9_emits_only_navigate_and_shown :
    (∀ (env : Env) (s : WatchdogState) (e : Event) (ev : BusEvent) (b : Bool),
        Action.dispatch ev b ∈ (handleEvent env s e).2.1 →
        ev.kind = BusEventKind.navigateToUrl ∨
          ev.kind = BusEventKind.aboutBlankDVDScreensaverShown)
  ∧ (∀ (env : Env) (s : WatchdogState) (e : Event) (tid : String) (b : Bool),
        Action.dispatch (BusEvent.closeTab tid) b ∉ (handleEvent env s e).2.1)
  ∧ BusEventKind.closeTab ∈ EMITS := by
  have key : ∀ (env : Env) (s : WatchdogState) (e : Event) (ev : BusEvent) (b : Bool),
      Action.dispatch ev b ∈ (handleEvent env s e).2.1 →
      ev.kind = BusEventKind.navigateToUrl ∨
        ev.kind = BusEventKind.aboutBlankDVDScreensaverShown := by
    intro env s e ev b hmem
    have hwf := wf_handleEvent env s e _ hmem
    rcases hwf with ⟨_, u, nt, rfl⟩ | ⟨_, tid, rfl⟩
    · exact Or.inl rfl
    · exact Or.inr rfl
  refine ⟨key, ?_, by decide⟩
  intro env s e tid b hmem
  rcases key env s e (BusEvent.closeTab tid) b hmem with h | h <;> cases h

/-- C9 witness: a concrete handled event dispatches no `CloseTabEvent`. -/
theorem c9_witness :
    Action.dispatch (BusEvent.closeTab "X") false
      ∉ (handleEvent trivEnv initialState Event.tabClosed).2.1 :=
  c9_emits_only_navigate_and_shown.2.1 trivEnv initialState Event.tabClosed "X"
    false

/-- C10: every CDP session the watchdog creates or reuses during any handled
event is requested with `focus=False`, so an injection never refocuses a
tab. -/
theorem c10_sessions_never_take_focus (env : Env) (s : WatchdogState)
    (e : Event) (tid : String) (b : Bool)
    (hmem : Action.getOrCreateCdpSession tid b ∈ (handleEvent env s e).2.1) :
    b = false := by
  have hwf := wf_handleEvent env s e _ hmem
  exact hwf

/-- C10 witness: a concrete injection's session is created without focus. -/
theorem c10_witness :
    (Action.getOrCreateCdpSession "X" false
        ∈ (handleEvent lastTabEnv initialState
            (Event.tabCreated "about:blank")).2.1)
  ∧ false = false :=
  ⟨by decide,
   c10_sessions_never_take_focus lastTabEnv initialState
     (Event.tabCreated "about:blank") "X" false (by decide)⟩

end AboutBlankWatchdog
